import Mathlib

/-!
# Screen.cpp (VVVVVV desktop version): resize and scale policy

A shallow embedding of `desktop_version/src/Screen.cpp`.

* C `int` values are `Int`; C integer division and remainder truncate toward zero, so they
  are `Int.tdiv` and `Int.tmod`.  Signed overflow is undefined in C and is not modelled:
  every statement below is about runs in which no `int` operation overflows.
* The test `(float) w / (float) h > 4.0 / 3.0` of line 225 is `aspectTest`: IEEE 754
  round-to-nearest-even arithmetic on exact rationals, single precision for the two
  conversions and the quotient, double precision for `4.0 / 3.0`, each operation rounded
  once (no excess precision).  The size computation takes the outcome of the test as the
  argument `wider`; theorems stated for an arbitrary `wider` hold whatever the test
  returns, and `requestedSize` is the computation run with the outcome `aspectTest w h`.
* Platform (SDL) calls are recorded, in order, in a trace; the status codes they return are
  inputs (`Platform`).
-/

namespace Screen

/-! ## The aspect test (Screen.cpp line 225) -/

/-- Round a rational to the nearest integer, an exact half going to the even neighbour. -/
def roundTiesEven (y : ℚ) : ℤ :=
  let f := ⌊y⌋
  if y - f < 1 / 2 then f
  else if 1 / 2 < y - f then f + 1
  else if f % 2 = 0 then f else f + 1

/-- Round a positive rational `x` to the nearest binary floating-point number with `p`
significant bits, ties to even: with `e` the binary exponent of `x` (`2 ^ e ≤ x < 2 ^ (e + 1)`),
`x` is rounded to a multiple of `2 ^ (e - (p - 1))`.  The exponent range is not modelled;
for positive `int` operands the values met on line 225 lie between `2 ^ (-31)` and `2 ^ 31`,
well inside the normal range of both formats. -/
def roundBinary (p : Nat) (x : ℚ) : ℚ :=
  let e : ℤ := Int.log 2 x
  let ulp : ℚ := 2 ^ (e - (p - 1))
  roundTiesEven (x / ulp) * ulp

/-- Line 225, for `w > 0` and `h > 0`: `(float) w / (float) h > 4.0 / 3.0`.  The two
conversions and the quotient are rounded to single precision (24 bits); `4.0 / 3.0` is the
double (53 bits) nearest to 4/3; the comparison is exact. -/
def aspectTest (w h : Int) : Bool :=
  decide (roundBinary 53 (4 / 3) < roundBinary 24 (roundBinary 24 w / roundBinary 24 h))

/-! ## `ResizeToNearestMultiple`: the size computation (Screen.cpp lines 221-270) -/

/-- Lines 240-254: `floor`, `ceiling` and the choice of `final_dimension`. -/
def final_dimension (usethisdimension usethisratio : Int) : Int :=
  let floor := (usethisdimension.tdiv usethisratio) * usethisratio
  let ceiling := floor + usethisratio
  if usethisdimension - floor < ceiling - usethisdimension then
    -- Floor is nearest
    floor
  else
    -- Ceiling is nearest. Or we're exactly on a multiple already
    ceiling

/-- Lines 225-238, first assignment of each branch: `usethisdimension`.
`wider` is the outcome of the test of line 225, `aspectTest w h`. -/
def usethisdimension (wider : Bool) (w h : Int) : Int :=
  if wider then h else w

/-- Lines 225-238, second assignment of each branch: `usethisratio` (the unit). -/
def usethisratio (wider : Bool) : Int :=
  if wider then 240 else 320

/-- Lines 225-238, third assignment of each branch: `using_width`. -/
def using_width (wider : Bool) : Bool :=
  if wider then false else true

/-- Lines 221-270 of `ResizeToNearestMultiple`: the `(x, y)` argument pair of the one
`ResizeScreen` call it makes, for a window reporting `(w, h)`. -/
def nearestMultipleSize (wider : Bool) (w h : Int) : Int × Int :=
  let final := final_dimension (usethisdimension wider w h) ( usethisratio wider)
  if final = 0 then
    -- We're way too small!
    (320, 240)
  else if using_width wider then
    (final, (final.tdiv 4) * 3)
  else
    ((final * 4).tdiv 3, final)

/-- Lines 221-270 with the test of line 225 evaluated: the `(x, y)` pair that
`ResizeToNearestMultiple` passes to `ResizeScreen` when the window reports `(w, h)`. -/
def requestedSize (w h : Int) : Int × Int :=
  nearestMultipleSize (aspectTest w h) w h

/-! ## Screen state, platform calls and their trace -/

/-- The mutable fields of the C++ `Screen` object that the resize code reads or writes,
together with the two function-local statics `resX`, `resY` of `ResizeScreen`
(lines 154-155, initially 320 and 240): the remembered window size. -/
structure State where
  isWindowed : Bool
  stretchMode : Int
  isFiltered : Bool
  vsync : Bool
  badSignalEffect : Bool
  resX : Int
  resY : Int
  deriving DecidableEq, Repr

/-- Calls the screen code issues to its collaborators.  The `SDL_` constructors are the
platform calls; `vlog_error` is the logging collaborator and `createmenu` the menu
collaborator.  `SDL_SetWindowFullscreen true` stands for the flag
`SDL_WINDOW_FULLSCREEN_DESKTOP`, `SDL_SetWindowFullscreen false` for the flag `0`;
`SDL_SetWindowPosition` is always called with `SDL_WINDOWPOS_CENTERED` twice. -/
inductive Call where
  | SDL_SetWindowFullscreen (desktop : Bool)
  | SDL_SetWindowSize (w h : Int)
  | SDL_SetWindowPosition
  | SDL_GetRendererOutputSize
  | SDL_RenderSetLogicalSize (w h : Int)
  | SDL_RenderSetIntegerScale (enable : Bool)
  | SDL_ShowWindow
  | vlog_error (msg : String)
  | createmenu
  deriving DecidableEq, Repr

/-- Whether a call is a platform (SDL) call. -/
def Call.isPlatform : Call → Bool
  | .vlog_error _ => false
  | .createmenu => false
  | _ => true

/-- What the platform answers during one run of `ResizeScreen`: the status codes of the
three calls whose result the code can inspect (0 is success), and the size that
`SDL_GetRendererOutputSize` writes when `GetWindowSize` is called. -/
structure Platform where
  SetWindowFullscreen_result : Int
  RenderSetLogicalSize_result : Int
  RenderSetIntegerScale_result : Int
  outputSize : Int × Int
  deriving DecidableEq, Repr

/-- The part of the device that the calls configure: display mode, requested window size,
renderer logical size, renderer integer-scale flag, window visibility. -/
structure Device where
  fullscreen : Bool
  windowSize : Int × Int
  logicalSize : Int × Int
  integerScale : Bool
  shown : Bool
  deriving DecidableEq, Repr

/-- Effect of a call that succeeded on the device configuration. -/
def Device.exec (d : Device) : Call → Device
  | .SDL_SetWindowFullscreen desktop => { d with fullscreen := desktop }
  | .SDL_SetWindowSize w h => { d with windowSize := (w, h) }
  | .SDL_RenderSetLogicalSize w h => { d with logicalSize := (w, h) }
  | .SDL_RenderSetIntegerScale enable => { d with integerScale := enable }
  | .SDL_ShowWindow => { d with shown := true }
  | _ => d

/-- Screen state, device configuration, and the calls issued so far (oldest first). -/
structure World where
  screen : State
  device : Device
  trace : List Call
  deriving DecidableEq, Repr

/-- Issue call `c`, which returns status `result`: it is appended to the trace, and it
takes effect on the device only when it succeeded. -/
def World.call (s : World) (c : Call) (result : Int) : World :=
  { s with
    trace := s.trace ++ [c]
    device := if result = 0 then s.device.exec c else s.device }

/-- The platform calls of a trace, in order. -/
def platformCalls (t : List Call) : List Call :=
  t.filter Call.isPlatform

/-- Lines 273-276: `SDL_GetRendererOutputSize` is called and writes the size `reported`
by the platform; the result is that size and the world after the call. -/
def GetWindowSize (reported : Int × Int) (s : World) : (Int × Int) × World :=
  (reported, s.call .SDL_GetRendererOutputSize 0)

/-! ## `ResizeScreen` (Screen.cpp lines 152-214) -/

/-- Lines 186-213: derive the renderer scaling from `stretchMode`, then show the window. -/
def ResizeScreen_scaling (P : Platform) (s : World) : World :=
  if s.screen.stretchMode = 1 then
    let got := GetWindowSize P.outputSize s
    let winX := got.1.1
    let winY := got.1.2
    let s1 := got.2
    let s2 := s1.call (.SDL_RenderSetLogicalSize winX winY) P.RenderSetLogicalSize_result
    if P.RenderSetLogicalSize_result ≠ 0 then
      s2.call (.vlog_error "Error: could not set logical size: %s") 0
    else
      let s3 := s2.call (.SDL_RenderSetIntegerScale false) P.RenderSetIntegerScale_result
      if P.RenderSetIntegerScale_result ≠ 0 then
        s3.call (.vlog_error "Error: could not set scale: %s") 0
      else
        s3.call .SDL_ShowWindow 0
  else
    -- the status of this call is not inspected
    let s1 := s.call (.SDL_RenderSetLogicalSize 320 240) P.RenderSetLogicalSize_result
    let s2 := s1.call (.SDL_RenderSetIntegerScale (decide (s.screen.stretchMode = 2)))
      P.RenderSetIntegerScale_result
    if P.RenderSetIntegerScale_result ≠ 0 then
      s2.call (.vlog_error "Error: could not set scale: %s") 0
    else
      s2.call .SDL_ShowWindow 0

/-- Lines 152-214.  `x = -1` or `y = -1` is the "unset" sentinel. -/
def ResizeScreen (P : Platform) (x y : Int) (s : World) : World :=
  let s1 : World :=
    if x ≠ -1 ∧ y ≠ -1 then
      -- This is a user resize!
      { s with screen := { s.screen with resX := x, resY := y } }
    else s
  if !s1.screen.isWindowed then
    let s2 := s1.call (.SDL_SetWindowFullscreen true) P.SetWindowFullscreen_result
    if P.SetWindowFullscreen_result ≠ 0 then
      s2.call (.vlog_error "Error: could not set the game to fullscreen mode: %s") 0
    else
      ResizeScreen_scaling P s2
  else
    let s2 := s1.call (.SDL_SetWindowFullscreen false) P.SetWindowFullscreen_result
    if P.SetWindowFullscreen_result ≠ 0 then
      s2.call (.vlog_error "Error: could not set the game to windowed mode: %s") 0
    else
      let s3 : World :=
        if x ≠ -1 ∧ y ≠ -1 then
          (s2.call (.SDL_SetWindowSize s2.screen.resX s2.screen.resY) 0).call
            .SDL_SetWindowPosition 0
        else s2
      ResizeScreen_scaling P s3

/-! ## The callers of `ResizeScreen` -/

/-- Lines 216-271.  `reported` is the size the initial `GetWindowSize` obtains and `wider`
the outcome of the test of line 225 on it (`aspectTest` of that size in a run of the code);
`P` is what the platform answers during the `ResizeScreen` call. -/
def ResizeToNearestMultiple (reported : Int × Int) (wider : Bool) (P : Platform)
    (s : World) : World :=
  let got := GetWindowSize reported s
  let w := got.1.1
  let h := got.1.2
  let size := nearestMultipleSize wider w h
  ResizeScreen P size.1 size.2 got.2

/-- Lines 338-348.  `graphicoptions` is the value of
`game.currentmenuname == Menu::graphicoptions`. -/
def toggleFullScreen (P : Platform) (graphicoptions : Bool) (s : World) : World :=
  let s1 : World := { s with screen := { s.screen with isWindowed := !s.screen.isWindowed } }
  let s2 := ResizeScreen P (-1) (-1) s1
  if graphicoptions then
    -- Recreate menu to update "resize to nearest"
    s2.call .createmenu 0
  else s2

/-- Lines 350-354. -/
def toggleStretchMode (P : Platform) (s : World) : World :=
  let s1 : World :=
    { s with screen := { s.screen with stretchMode := (s.screen.stretchMode + 1).tmod 3 } }
  ResizeScreen P (-1) (-1) s1

/-! ## Vocabulary of the statements -/

/-- Nearest multiple: `m` is a multiple of `u`, and no multiple of `u` is strictly closer
to `d`. -/
def IsNearestMultiple (u d m : Int) : Prop :=
  u ∣ m ∧ ∀ m' : Int, u ∣ m' → |d - m| ≤ |d - m'|

/-- Nearest positive multiple: `m` is a positive multiple of `u`, and no positive multiple
of `u` is strictly closer to `d`. -/
def IsNearestPositiveMultiple (u d m : Int) : Prop :=
  0 < m ∧ u ∣ m ∧ ∀ m' : Int, 0 < m' → u ∣ m' → |d - m| ≤ |d - m'|

/-- Whenever `d` lies exactly midway between two consecutive multiples of `u`, `m` is the
larger of the two. -/
def TiesToCeiling (u d m : Int) : Prop :=
  ∀ k : Int, d - u * k = u * (k + 1) - d → m = u * (k + 1)

/-- Snapping `d` to the unit `u` gives `m`: `m` is the positive multiple of `u` nearest to
`d`, an exact-midpoint tie goes to the larger multiple, and `m` is the nearest multiple
outright whenever `d` is at least half a unit. -/
def SnapsTo (u d m : Int) : Prop :=
  IsNearestPositiveMultiple u d m ∧ TiesToCeiling u d m ∧
    (u ≤ 2 * d → IsNearestMultiple u d m)

/-- The scale factor that `ResizeToNearestMultiple` settles on: the limiting dimension
divided by its unit and rounded half-up, but at least 1. -/
def scaleOf (wider : Bool) (w h : Int) : Int :=
  max 1 ((usethisdimension wider w h + usethisratio wider / 2) / usethisratio wider)

/-- A platform on which every inspected call succeeds. -/
def Platform.allSucceed (P : Platform) : Prop :=
  P.SetWindowFullscreen_result = 0 ∧ P.RenderSetLogicalSize_result = 0 ∧
    P.RenderSetIntegerScale_result = 0

instance Platform.decidableAllSucceed (P : Platform) : Decidable P.allSucceed :=
  inferInstanceAs (Decidable (_ ∧ _ ∧ _))

/-! ## Concrete inputs -/

/-- The platform that answers the three inspected calls with the status codes `r1`, `r2`,
`r3` (mode switch, logical size, integer-scale) and reports the output size `size`. -/
def Platform.answering (r1 r2 r3 : Int) (size : Int × Int) : Platform :=
  { SetWindowFullscreen_result := r1
    RenderSetLogicalSize_result := r2
    RenderSetIntegerScale_result := r3
    outputSize := size }

/-- A running screen with the default flags (filter off, vsync on, bad-signal off), the
given mode, stretch mode and remembered size, on a device in the matching mode whose window
has size `window`; no call recorded yet. -/
def World.sample (isWindowed : Bool) (stretchMode : Int) (remembered window : Int × Int) :
    World :=
  { screen :=
      { isWindowed := isWindowed
        stretchMode := stretchMode
        isFiltered := false
        vsync := true
        badSignalEffect := false
        resX := remembered.1
        resY := remembered.2 }
    device :=
      { fullscreen := !isWindowed
        windowSize := window
        logicalSize := (320, 240)
        integerScale := false
        shown := true }
    trace := [] }

/-! ## Arithmetic of the snapping step -/

theorem final_dimension_320 (d : Int) (hd : 0 ≤ d) :
    final_dimension d 320 = (d + 160) / 320 * 320 := by
  unfold final_dimension
  rw [Int.tdiv_eq_ediv hd (by decide)]
  simp only []
  split <;> omega

theorem final_dimension_240 (d : Int) (hd : 0 ≤ d) :
    final_dimension d 240 = (d + 120) / 240 * 240 := by
  unfold final_dimension
  rw [Int.tdiv_eq_ediv hd (by decide)]
  simp only []
  split <;> omega

theorem nearestMultipleSize_eq (wider : Bool) (w h : Int) (hw : 0 < w) (hh : 0 < h) :
    nearestMultipleSize wider w h = (320 * scaleOf wider w h, 240 * scaleOf wider w h) := by
  cases wider
  · have hf := final_dimension_320 w (le_of_lt hw)
    have h4 : ((w + 160) / 320 * 320).tdiv 4 = (w + 160) / 320 * 320 / 4 :=
      Int.tdiv_eq_ediv (by omega) (by decide)
    simp only [nearestMultipleSize, scaleOf, usethisdimension, usethisratio, using_width, hf,
      h4, Bool.false_eq_true, if_false, if_true]
    split <;> simp only [Prod.mk.injEq] <;> constructor <;> omega
  · have hf := final_dimension_240 h (le_of_lt hh)
    have h3 : ((h + 120) / 240 * 240 * 4).tdiv 3 = (h + 120) / 240 * 240 * 4 / 3 :=
      Int.tdiv_eq_ediv (by omega) (by decide)
    simp only [nearestMultipleSize, scaleOf, usethisdimension, usethisratio, using_width, hf,
      h3, if_true, Bool.true_eq_false, Bool.false_eq_true, if_false]
    split <;> simp only [Prod.mk.injEq] <;> constructor <;> omega

theorem scaleOf_pos (wider : Bool) (w h : Int) : 1 ≤ scaleOf wider w h := by
  unfold scaleOf
  exact le_max_left _ _

theorem scaleOf_multiple (wider : Bool) (k : Int) (hk : 1 ≤ k) :
    scaleOf wider (320 * k) (240 * k) = k := by
  cases wider <;> simp only [scaleOf, usethisdimension, usethisratio, if_true,
    Bool.false_eq_true, if_false] <;> omega

theorem abs_sub_le_abs_sub (d a b : Int)
    (h : (a ≤ d ∧ d ≤ b ∧ d - a ≤ b - d) ∨ (a ≤ d ∧ b ≤ d ∧ a ≥ b) ∨
      (d ≤ a ∧ d ≤ b ∧ a ≤ b) ∨ (d ≤ a ∧ b ≤ d ∧ a - d ≤ d - b)) :
    |d - a| ≤ |d - b| := by
  rcases abs_cases (d - a) with ⟨e1, _⟩ | ⟨e1, _⟩ <;>
    rcases abs_cases (d - b) with ⟨e2, _⟩ | ⟨e2, _⟩ <;> rw [e1, e2] <;> omega

theorem nearest_positive_320 (w : Int) (hw : 0 < w) :
    IsNearestPositiveMultiple 320 w (320 * max 1 ((w + 320 / 2) / 320)) := by
  refine ⟨by omega, Dvd.intro _ rfl, ?_⟩
  rintro m' hpos ⟨j, rfl⟩
  apply abs_sub_le_abs_sub
  omega

theorem nearest_positive_240 (h : Int) (hh : 0 < h) :
    IsNearestPositiveMultiple 240 h (240 * max 1 ((h + 240 / 2) / 240)) := by
  refine ⟨by omega, Dvd.intro _ rfl, ?_⟩
  rintro m' hpos ⟨j, rfl⟩
  apply abs_sub_le_abs_sub
  omega

theorem nearest_320 (w : Int) (hw : 320 ≤ 2 * w) :
    IsNearestMultiple 320 w (320 * max 1 ((w + 320 / 2) / 320)) := by
  refine ⟨Dvd.intro _ rfl, ?_⟩
  rintro m' ⟨j, rfl⟩
  apply abs_sub_le_abs_sub
  omega

theorem nearest_240 (h : Int) (hh : 240 ≤ 2 * h) :
    IsNearestMultiple 240 h (240 * max 1 ((h + 240 / 2) / 240)) := by
  refine ⟨Dvd.intro _ rfl, ?_⟩
  rintro m' ⟨j, rfl⟩
  apply abs_sub_le_abs_sub
  omega

theorem snapsTo_width (w h : Int) (hw : 0 < w) (hh : 0 < h) :
    SnapsTo 320 w (nearestMultipleSize false w h).1 := by
  rw [nearestMultipleSize_eq false w h hw hh]
  simp only [usethisratio, usethisdimension, scaleOf, Bool.false_eq_true, if_false]
  refine ⟨nearest_positive_320 w hw, ?_, nearest_320 w⟩
  intro k hk
  omega

theorem snapsTo_height (w h : Int) (hw : 0 < w) (hh : 0 < h) :
    SnapsTo 240 h (nearestMultipleSize true w h).2 := by
  rw [nearestMultipleSize_eq true w h hw hh]
  simp only [usethisratio, usethisdimension, scaleOf, if_true]
  refine ⟨nearest_positive_240 h hh, ?_, nearest_240 h⟩
  intro k hk
  omega

theorem nearestMultipleSize_exact_aspect (w h : Int) (hw : 0 < w) (hh : 0 < h)
    (h43 : 3 * w = 4 * h) : nearestMultipleSize true w h = nearestMultipleSize false w h := by
  rw [nearestMultipleSize_eq true w h hw hh, nearestMultipleSize_eq false w h hw hh]
  simp only [usethisratio, usethisdimension, scaleOf, Bool.false_eq_true, if_false, if_true,
    Prod.mk.injEq]
  constructor <;> omega

/-! ## The aspect test: rounding lemmas -/

theorem roundTiesEven_le (y : ℚ) : (roundTiesEven y : ℚ) ≤ y + 1 / 2 := by
  have h1 := Int.floor_le y
  have h2 := Int.lt_floor_add_one y
  unfold roundTiesEven
  simp only []
  split_ifs <;> push_cast <;> linarith

theorem le_roundTiesEven (y : ℚ) : y - 1 / 2 ≤ (roundTiesEven y : ℚ) := by
  have h1 := Int.floor_le y
  have h2 := Int.lt_floor_add_one y
  unfold roundTiesEven
  simp only []
  split_ifs <;> push_cast <;> linarith

theorem roundTiesEven_eq_of_lt (y : ℚ) (n : ℤ) (h1 : (n : ℚ) - 1 / 2 < y)
    (h2 : y < n + 1 / 2) : roundTiesEven y = n := by
  have a := roundTiesEven_le y
  have b := le_roundTiesEven y
  have c : (roundTiesEven y : ℚ) < ((n + 1 : ℤ) : ℚ) := by push_cast; linarith
  have d : ((n - 1 : ℤ) : ℚ) < (roundTiesEven y : ℚ) := by push_cast; linarith
  have c' : roundTiesEven y < n + 1 := by exact_mod_cast c
  have d' : n - 1 < roundTiesEven y := by exact_mod_cast d
  omega

theorem roundTiesEven_intCast (n : ℤ) : roundTiesEven (n : ℚ) = n :=
  roundTiesEven_eq_of_lt _ n (by linarith) (by linarith)

theorem log_two_eq (x : ℚ) (e : ℤ) (h1 : (2 : ℚ) ^ e ≤ x) (h2 : x < (2 : ℚ) ^ (e + 1)) :
    Int.log 2 x = e := by
  have hx : 0 < x := lt_of_lt_of_le (zpow_pos (by norm_num) e) h1
  have a : e ≤ Int.log 2 x := by
    rw [← Int.zpow_le_iff_le_log (by norm_num) hx]
    exact_mod_cast h1
  have b : Int.log 2 x < e + 1 := by
    rw [← Int.lt_zpow_iff_log_lt (by norm_num) hx]
    exact_mod_cast h2
  omega

theorem roundBinary_of_log (p : Nat) (x : ℚ) (e : ℤ) (h1 : (2 : ℚ) ^ e ≤ x)
    (h2 : x < (2 : ℚ) ^ (e + 1)) :
    roundBinary p x = roundTiesEven (x / 2 ^ (e - (p - 1))) * 2 ^ (e - (p - 1)) := by
  unfold roundBinary
  rw [log_two_eq x e h1 h2]

theorem zpow_log_le (x : ℚ) (hx : 0 < x) : (2 : ℚ) ^ Int.log 2 x ≤ x := by
  have := Int.zpow_log_le_self (b := 2) (r := x) (by norm_num) hx
  exact_mod_cast this

theorem lt_zpow_log_succ (x : ℚ) : x < (2 : ℚ) ^ (Int.log 2 x + 1) := by
  have := Int.lt_zpow_succ_log_self (b := 2) (by norm_num) x
  exact_mod_cast this

theorem roundBinary_float_bounds (x : ℚ) (hx : 0 < x) :
    (2 : ℚ) ^ Int.log 2 x ≤ roundBinary 24 x ∧
      roundBinary 24 x ≤ (2 : ℚ) ^ (Int.log 2 x + 1) := by
  have h1 := zpow_log_le x hx
  have h2 := lt_zpow_log_succ x
  have hu : (0 : ℚ) < 2 ^ (Int.log 2 x - 23) := zpow_pos (by norm_num) _
  have e1 : (2 : ℚ) ^ Int.log 2 x = 8388608 * 2 ^ (Int.log 2 x - 23) := by
    rw [show Int.log 2 x = 23 + (Int.log 2 x - 23) by ring, zpow_add₀ (by norm_num)]
    norm_num
  have e2 : (2 : ℚ) ^ (Int.log 2 x + 1) = 16777216 * 2 ^ (Int.log 2 x - 23) := by
    rw [show Int.log 2 x + 1 = 24 + (Int.log 2 x - 23) by ring, zpow_add₀ (by norm_num)]
    norm_num
  have hy1 : (8388608 : ℚ) ≤ x / 2 ^ (Int.log 2 x - 23) := by
    rw [le_div_iff₀ hu]
    linarith
  have hy2 : x / 2 ^ (Int.log 2 x - 23) < 16777216 := by
    rw [div_lt_iff₀ hu]
    linarith
  have a := roundTiesEven_le (x / 2 ^ (Int.log 2 x - 23))
  have b := le_roundTiesEven (x / 2 ^ (Int.log 2 x - 23))
  have c : ((8388608 - 1 : ℤ) : ℚ) < (roundTiesEven (x / 2 ^ (Int.log 2 x - 23)) : ℚ) := by
    push_cast
    linarith
  have d : (roundTiesEven (x / 2 ^ (Int.log 2 x - 23)) : ℚ) < ((16777216 + 1 : ℤ) : ℚ) := by
    push_cast
    linarith
  have c' : 8388608 - 1 < roundTiesEven (x / 2 ^ (Int.log 2 x - 23)) := by exact_mod_cast c
  have d' : roundTiesEven (x / 2 ^ (Int.log 2 x - 23)) < 16777216 + 1 := by exact_mod_cast d
  have c2 : (8388608 : ℚ) ≤ (roundTiesEven (x / 2 ^ (Int.log 2 x - 23)) : ℚ) := by
    exact_mod_cast (by omega : (8388608 : ℤ) ≤ roundTiesEven (x / 2 ^ (Int.log 2 x - 23)))
  have d2 : (roundTiesEven (x / 2 ^ (Int.log 2 x - 23)) : ℚ) ≤ 16777216 := by
    exact_mod_cast (by omega : roundTiesEven (x / 2 ^ (Int.log 2 x - 23)) ≤ (16777216 : ℤ))
  have hr : roundBinary 24 x =
      roundTiesEven (x / 2 ^ (Int.log 2 x - 23)) * 2 ^ (Int.log 2 x - 23) := by
    unfold roundBinary
    norm_num
  rw [hr, e1, e2]
  constructor
  · exact mul_le_mul_of_nonneg_right c2 (le_of_lt hu)
  · exact mul_le_mul_of_nonneg_right d2 (le_of_lt hu)

theorem roundBinary_float_intCast (n : ℤ) (h0 : 0 < n) (h1 : n < 16777216) :
    roundBinary 24 (n : ℚ) = n := by
  have hx : (0 : ℚ) < n := by exact_mod_cast h0
  have hlo : 0 ≤ Int.log 2 (n : ℚ) := by
    rw [← Int.zpow_le_iff_le_log (by norm_num) hx]
    have : (1 : ℚ) ≤ n := by exact_mod_cast h0
    simpa using this
  have hhi : Int.log 2 (n : ℚ) < 24 := by
    rw [← Int.lt_zpow_iff_log_lt (by norm_num) hx]
    have : (n : ℚ) < 16777216 := by exact_mod_cast h1
    norm_num
    exact this
  obtain ⟨k, hk⟩ : ∃ k : ℕ, (k : ℤ) = 23 - Int.log 2 (n : ℚ) :=
    ⟨(23 - Int.log 2 (n : ℚ)).toNat, Int.toNat_of_nonneg (by omega)⟩
  have hu : (2 : ℚ) ^ (Int.log 2 (n : ℚ) - 23) = ((2 : ℚ) ^ k)⁻¹ := by
    rw [show Int.log 2 (n : ℚ) - 23 = -(k : ℤ) by omega, zpow_neg, zpow_natCast]
  have hr : roundBinary 24 (n : ℚ) =
      roundTiesEven ((n : ℚ) / 2 ^ (Int.log 2 (n : ℚ) - 23)) *
        2 ^ (Int.log 2 (n : ℚ) - 23) := by
    unfold roundBinary
    norm_num
  have hpos : (0 : ℚ) < 2 ^ k := pow_pos (by norm_num) k
  rw [hr, hu, div_inv_eq_mul, show (n : ℚ) * 2 ^ k = ((n * 2 ^ k : ℤ) : ℚ) by push_cast; ring,
    roundTiesEven_intCast]
  push_cast
  field_simp

theorem roundBinary_float_intCast_le (n : ℤ) (h0 : 0 < n) (h1 : n ≤ 16777216) :
    roundBinary 24 (n : ℚ) = n := by
  rcases lt_or_eq_of_le h1 with h | rfl
  · exact roundBinary_float_intCast n h0 h
  · rw [roundBinary_of_log 24 _ 24 (by norm_num) (by norm_num)]
    norm_num
    rw [show (8388608 : ℚ) = ((8388608 : ℤ) : ℚ) by norm_num, roundTiesEven_intCast]
    norm_num

theorem double_four_thirds :
    roundBinary 53 (4 / 3) = 6004799503160661 / 4503599627370496 := by
  rw [roundBinary_of_log 53 _ 0 (by norm_num) (by norm_num)]
  norm_num
  rw [roundTiesEven_eq_of_lt _ 6004799503160661 (by norm_num) (by norm_num)]
  norm_num

theorem roundBinary_float_unit (x : ℚ) (h1 : 1 ≤ x) (h2 : x < 2) :
    roundBinary 24 x = roundTiesEven (x * 8388608) / 8388608 := by
  rw [roundBinary_of_log 24 _ 0 (by norm_num; exact h1) (by norm_num; exact h2)]
  have e : (2 : ℚ) ^ ((0 : ℤ) - (((24 : ℕ) : ℤ) - 1)) = 1 / 8388608 := by norm_num
  rw [e, div_div_eq_mul_div, div_one, mul_one_div]

theorem aspectTest_eq (w h : ℤ) (hw : 0 < w) (hw2 : w ≤ 16777216) (hh : 0 < h)
    (hh2 : h ≤ 16777216) : aspectTest w h = decide (4 * h ≤ 3 * w) := by
  unfold aspectTest
  rw [roundBinary_float_intCast_le w hw hw2, roundBinary_float_intCast_le h hh hh2,
    double_four_thirds]
  have hwq : (0 : ℚ) < w := by exact_mod_cast hw
  have hhq : (0 : ℚ) < h := by exact_mod_cast hh
  have hq : (0 : ℚ) < (w : ℚ) / h := div_pos hwq hhq
  by_cases hc : 4 * h ≤ 3 * w
  · have hcq : (4 : ℚ) * h ≤ 3 * w := by exact_mod_cast hc
    have hq43 : (4 : ℚ) / 3 ≤ (w : ℚ) / h := by
      rw [le_div_iff₀ hhq]
      linarith
    simp only [hc, decide_True, decide_eq_true_eq]
    by_cases h2 : (w : ℚ) / h < 2
    · rw [roundBinary_float_unit _ (by linarith) h2, lt_div_iff₀ (by norm_num)]
      have b := le_roundTiesEven ((w : ℚ) / h * 8388608)
      have c : ((11184810 : ℤ) : ℚ) < (roundTiesEven ((w : ℚ) / h * 8388608) : ℚ) := by
        push_cast
        linarith
      have c' : (11184810 : ℤ) < roundTiesEven ((w : ℚ) / h * 8388608) := by exact_mod_cast c
      have c2 : (11184811 : ℚ) ≤ (roundTiesEven ((w : ℚ) / h * 8388608) : ℚ) := by
        exact_mod_cast (by omega : (11184811 : ℤ) ≤ roundTiesEven ((w : ℚ) / h * 8388608))
      linarith
    · have hlog : 1 ≤ Int.log 2 ((w : ℚ) / h) := by
        rw [← Int.zpow_le_iff_le_log (by norm_num) hq]
        norm_num
        linarith
      have b := (roundBinary_float_bounds _ hq).1
      have m : (2 : ℚ) ^ (1 : ℤ) ≤ 2 ^ Int.log 2 ((w : ℚ) / h) :=
        zpow_le_zpow_right₀ (by norm_num) hlog
      norm_num at m
      linarith
  · have hc' : 3 * w + 1 ≤ 4 * h := by omega
    have hk : w * 16777216 < 22369621 * h := by omega
    have hkq : (w : ℚ) * 16777216 < 22369621 * h := by exact_mod_cast hk
    have hqM : (w : ℚ) / h < 22369621 / 16777216 := by
      rw [div_lt_iff₀ hhq]
      linarith
    simp only [hc, decide_False, decide_eq_false_iff_not, not_lt]
    by_cases h1 : 1 ≤ (w : ℚ) / h
    · rw [roundBinary_float_unit _ h1 (by linarith), div_le_iff₀ (by norm_num)]
      have a := roundTiesEven_le ((w : ℚ) / h * 8388608)
      have c : (roundTiesEven ((w : ℚ) / h * 8388608) : ℚ) < ((11184811 : ℤ) : ℚ) := by
        push_cast
        linarith
      have c' : roundTiesEven ((w : ℚ) / h * 8388608) < (11184811 : ℤ) := by exact_mod_cast c
      have c2 : (roundTiesEven ((w : ℚ) / h * 8388608) : ℚ) ≤ 11184810 := by
        exact_mod_cast (by omega : roundTiesEven ((w : ℚ) / h * 8388608) ≤ (11184810 : ℤ))
      linarith
    · have hlog : Int.log 2 ((w : ℚ) / h) < 0 := by
        rw [← Int.lt_zpow_iff_log_lt (by norm_num) hq]
        norm_num
        linarith
      have b := (roundBinary_float_bounds _ hq).2
      have m : (2 : ℚ) ^ (Int.log 2 ((w : ℚ) / h) + 1) ≤ 1 :=
        zpow_le_one_of_nonpos₀ (by norm_num) (by omega)
      linarith

theorem aspectTest_large :
    aspectTest 80000159 60000120 = true := by
  have e1 : roundBinary 24 ((80000159 : ℤ) : ℚ) = 80000160 := by
    rw [roundBinary_of_log 24 _ 26 (by norm_num) (by norm_num)]
    norm_num
    rw [roundTiesEven_eq_of_lt _ 10000020 (by norm_num) (by norm_num)]
    norm_num
  have e2 : roundBinary 24 ((60000120 : ℤ) : ℚ) = 60000120 := by
    rw [roundBinary_of_log 24 _ 25 (by norm_num) (by norm_num)]
    norm_num
    rw [roundTiesEven_eq_of_lt _ 15000030 (by norm_num) (by norm_num)]
    norm_num
  have e3 : roundBinary 24 ((80000160 : ℚ) / 60000120) = 11184811 / 8388608 := by
    rw [roundBinary_float_unit _ (by norm_num) (by norm_num),
      roundTiesEven_eq_of_lt _ 11184811 (by norm_num) (by norm_num)]
    norm_num
  unfold aspectTest
  rw [e1, e2, e3, double_four_thirds]
  norm_num

/-! ## `ResizeToNearestMultiple`: the size passed to `ResizeScreen` -/

/-- C1: for every window size with `w > 0` and `h > 0`, and whichever way the aspect test
falls, the pair passed to `ResizeScreen` satisfies `width * 3 = height * 4`. -/
theorem ResizeToNearestMultiple_aspect_exact (wider : Bool) (w h : Int) (hw : 0 < w)
    (hh : 0 < h) :
    (nearestMultipleSize wider w h).1 * 3 = (nearestMultipleSize wider w h).2 * 4 := by
  rw [nearestMultipleSize_eq wider w h hw hh]
  simp only []
  omega

theorem ResizeToNearestMultiple_aspect_exact_witness :
    (0 : Int) < 700 ∧ (0 : Int) < 500 ∧
      (nearestMultipleSize true 700 500).1 * 3 = (nearestMultipleSize true 700 500).2 * 4 :=
  ⟨by decide, by decide, ResizeToNearestMultiple_aspect_exact true 700 500 (by decide)
    (by decide)⟩

/-- C2 as stated fails, at two inputs.  A 100x100 window is width-limited and the size
passed is 320x240, whose width 320 is not the multiple of 320 nearest to 100 (0 is closer).
A 80000159x60000120 window has `w/h ≤ 4/3`, yet the single-precision test holds (the
rounded quotient is the float nearest 4/3, which is above the double `4.0 / 3.0`), the
height is snapped, and the width passed, 80000320, is not the multiple of 320 nearest to
80000159, not even among the positive ones (80000000 is closer). -/
theorem ResizeToNearestMultiple_nearest_multiple_fails :
    (aspectTest 100 100 = false ∧ requestedSize 100 100 = (320, 240) ∧
        ¬ IsNearestMultiple 320 100 (requestedSize 100 100).1) ∧
      (3 * (80000159 : Int) ≤ 4 * 60000120 ∧ aspectTest 80000159 60000120 = true ∧
        requestedSize 80000159 60000120 = (80000320, 60000240) ∧
        ¬ IsNearestMultiple 320 80000159 (requestedSize 80000159 60000120).1 ∧
        ¬ IsNearestPositiveMultiple 320 80000159 (requestedSize 80000159 60000120).1) := by
  have t1 : aspectTest 100 100 = false := by
    rw [aspectTest_eq 100 100 (by decide) (by decide) (by decide) (by decide)]
    decide
  have s1 : requestedSize 100 100 = (320, 240) := by
    unfold requestedSize
    rw [t1]
    decide
  have s2 : requestedSize 80000159 60000120 = (80000320, 60000240) := by
    unfold requestedSize
    rw [aspectTest_large]
    decide
  refine ⟨⟨t1, s1, ?_⟩, by decide, aspectTest_large, s2, ?_, ?_⟩
  · rintro ⟨-, hnear⟩
    have h0 := hnear 0 (dvd_zero _)
    rw [s1] at h0
    norm_num at h0
  · rintro ⟨-, hnear⟩
    have h0 := hnear 80000000 (by decide)
    rw [s2] at h0
    norm_num at h0
  · rintro ⟨-, -, hnear⟩
    have h0 := hnear 80000000 (by decide) (by decide)
    rw [s2] at h0
    norm_num at h0

/-- C2, amended: for every window size with `w > 0` and `h > 0`, the limiting side of the
size passed to `ResizeScreen` is snapped to the POSITIVE multiple of its unit nearest to the
original (ties to the larger multiple; the nearest multiple outright from half a unit up).
For `w, h ≤ 16777216` the limiting side is the width (unit 320) when `w/h ≤ 4/3` and the
height (unit 240) when `w/h > 4/3`; for every size it is the side the single-precision test
of line 225 selects.  The size so described is the one the call to `ResizeScreen` gets. -/
theorem ResizeToNearestMultiple_nearest_positive_multiple (w h : Int) (hw : 0 < w)
    (hh : 0 < h) :
    (w ≤ 16777216 → h ≤ 16777216 →
        (3 * w ≤ 4 * h → SnapsTo 320 w (requestedSize w h).1) ∧
        (4 * h < 3 * w → SnapsTo 240 h (requestedSize w h).2)) ∧
      (aspectTest w h = false → SnapsTo 320 w (requestedSize w h).1) ∧
      (aspectTest w h = true → SnapsTo 240 h (requestedSize w h).2) ∧
      (∀ (P : Platform) (s : World),
        ResizeToNearestMultiple (w, h) (aspectTest w h) P s =
          ResizeScreen P (requestedSize w h).1 (requestedSize w h).2
            (GetWindowSize (w, h) s).2) := by
  have hF : aspectTest w h = false → SnapsTo 320 w (requestedSize w h).1 := by
    intro ht
    rw [requestedSize, ht]
    exact snapsTo_width w h hw hh
  have hT : aspectTest w h = true → SnapsTo 240 h (requestedSize w h).2 := by
    intro ht
    rw [requestedSize, ht]
    exact snapsTo_height w h hw hh
  refine ⟨?_, hF, hT, fun P s => rfl⟩
  intro hw2 hh2
  have ht := aspectTest_eq w h hw hw2 hh hh2
  constructor
  · intro hle
    rcases lt_or_eq_of_le hle with hlt | heq
    · exact hF (by rw [ht]; simp only [decide_eq_false_iff_not]; omega)
    · have hwide : aspectTest w h = true := by
        rw [ht]
        simp only [decide_eq_true_eq]
        omega
      rw [requestedSize, hwide, nearestMultipleSize_exact_aspect w h hw hh heq]
      exact snapsTo_width w h hw hh
  · intro hlt
    exact hT (by rw [ht]; simp only [decide_eq_true_eq]; omega)

theorem ResizeToNearestMultiple_nearest_positive_multiple_witness :
    (0 : Int) < 480 ∧ (0 : Int) < 480 ∧
      (((480 : Int) ≤ 16777216 → (480 : Int) ≤ 16777216 →
        (3 * (480 : Int) ≤ 4 * 480 → SnapsTo 320 480 (requestedSize 480 480).1) ∧
        (4 * (480 : Int) < 3 * 480 → SnapsTo 240 480 (requestedSize 480 480).2)) ∧
      (aspectTest 480 480 = false → SnapsTo 320 480 (requestedSize 480 480).1) ∧
      (aspectTest 480 480 = true → SnapsTo 240 480 (requestedSize 480 480).2) ∧
      (∀ (P : Platform) (s : World),
        ResizeToNearestMultiple (480, 480) (aspectTest 480 480) P s =
          ResizeScreen P (requestedSize 480 480).1 (requestedSize 480 480).2
            (GetWindowSize (480, 480) s).2)) :=
  ⟨by decide, by decide,
    ResizeToNearestMultiple_nearest_positive_multiple 480 480 (by decide) (by decide)⟩

/-- C3: for every window size with `w > 0` and `h > 0` whose limiting dimension is below
one full unit, the call made is exactly `ResizeScreen(320, 240)`. -/
theorem ResizeToNearestMultiple_below_unit (wider : Bool) (w h : Int) (hw : 0 < w)
    (hh : 0 < h) (hsmall : usethisdimension wider w h < usethisratio wider) (P : Platform)
    (s : World) :
    nearestMultipleSize wider w h = (320, 240) ∧
      ResizeToNearestMultiple (w, h) wider P s =
        ResizeScreen P 320 240 (GetWindowSize (w, h) s).2 := by
  have key : nearestMultipleSize wider w h = (320, 240) := by
    rw [nearestMultipleSize_eq wider w h hw hh]
    cases wider <;>
      simp only [usethisratio, usethisdimension, scaleOf, Bool.false_eq_true, if_false,
        if_true, Prod.mk.injEq] at hsmall ⊢ <;>
      constructor <;> omega
  refine ⟨key, ?_⟩
  simp only [ResizeToNearestMultiple, GetWindowSize, key]

theorem ResizeToNearestMultiple_below_unit_witness :
    (0 : Int) < 100 ∧ (0 : Int) < 100 ∧
      usethisdimension false 100 100 < usethisratio false ∧
      nearestMultipleSize false 100 100 = (320, 240) ∧
      ResizeToNearestMultiple (100, 100) false (Platform.answering 0 0 0 (320, 240))
          (World.sample true 0 (320, 240) (100, 100)) =
        ResizeScreen (Platform.answering 0 0 0 (320, 240)) 320 240
          (GetWindowSize (100, 100) (World.sample true 0 (320, 240) (100, 100))).2 :=
  ⟨by decide, by decide, by decide,
    ResizeToNearestMultiple_below_unit false 100 100 (by decide) (by decide) (by decide)
      (Platform.answering 0 0 0 (320, 240))
      (World.sample true 0 (320, 240) (100, 100))⟩

/-- C4 as stated fails: for the exact multiple `d = 320` of the unit 320 the selection
yields 320 itself, not `320 + 320`. -/
theorem exact_multiple_selects_floor_at_320 :
    final_dimension 320 320 = 320 ∧ final_dimension 320 320 ≠ 320 + 320 := by
  decide

/-- C4, amended: for every limiting dimension `d > 0` that is an exact multiple of its
unit (320 or 240), the floor/ceiling selection resolves to floor, which is `d` itself;
an exact-midpoint tie (`d` plus half a unit) does resolve to ceiling, `d + unit`. -/
theorem final_dimension_exact_multiple (u d : Int) (hu : u = 320 ∨ u = 240) (hd : 0 < d)
    (hdvd : u ∣ d) :
    final_dimension d u = d ∧ final_dimension d u = (d.tdiv u) * u ∧
      final_dimension (d + u / 2) u = d + u := by
  obtain ⟨k, rfl⟩ := hdvd
  rcases hu with rfl | rfl
  · rw [final_dimension_320 _ (le_of_lt hd), final_dimension_320 _ (by omega),
      Int.tdiv_eq_ediv (le_of_lt hd) (by decide)]
    omega
  · rw [final_dimension_240 _ (le_of_lt hd), final_dimension_240 _ (by omega),
      Int.tdiv_eq_ediv (le_of_lt hd) (by decide)]
    omega

theorem final_dimension_exact_multiple_witness :
    ((320 : Int) = 320 ∨ (320 : Int) = 240) ∧ (0 : Int) < 640 ∧ (320 : Int) ∣ 640 ∧
      (final_dimension 640 320 = 640 ∧ final_dimension 640 320 = (Int.tdiv 640 320) * 320 ∧
        final_dimension (640 + 320 / 2) 320 = 640 + 320) :=
  ⟨by decide, by decide, by decide,
    final_dimension_exact_multiple 320 640 (by decide) (by decide) (by decide)⟩

/-- C10: for every `w > 0` and `h > 0`, snapping the snapped size again returns it
unchanged, whichever way the two aspect tests fall; every output is `(320 * k, 240 * k)`
with `k ≥ 1`, and every such size is a fixed point. -/
theorem ResizeToNearestMultiple_idempotent (wider wider2 : Bool) (w h : Int) (hw : 0 < w)
    (hh : 0 < h) :
    nearestMultipleSize wider2 (nearestMultipleSize wider w h).1
        (nearestMultipleSize wider w h).2 = nearestMultipleSize wider w h ∧
      (∃ k : Int, 1 ≤ k ∧ nearestMultipleSize wider w h = (320 * k, 240 * k)) ∧
      (∀ k : Int, 1 ≤ k →
        nearestMultipleSize wider2 (320 * k) (240 * k) = (320 * k, 240 * k)) := by
  have fix : ∀ k : Int, 1 ≤ k →
      nearestMultipleSize wider2 (320 * k) (240 * k) = (320 * k, 240 * k) := by
    intro k hk
    rw [nearestMultipleSize_eq wider2 _ _ (by omega) (by omega), scaleOf_multiple wider2 k hk]
  refine ⟨?_, ⟨scaleOf wider w h, scaleOf_pos wider w h, nearestMultipleSize_eq wider w h hw hh⟩,
    fix⟩
  rw [nearestMultipleSize_eq wider w h hw hh]
  exact fix _ (scaleOf_pos wider w h)

theorem ResizeToNearestMultiple_idempotent_witness :
    (0 : Int) < 700 ∧ (0 : Int) < 500 ∧
      (nearestMultipleSize true (nearestMultipleSize true 700 500).1
        (nearestMultipleSize true 700 500).2 = nearestMultipleSize true 700 500 ∧
      (∃ k : Int, 1 ≤ k ∧ nearestMultipleSize true 700 500 = (320 * k, 240 * k)) ∧
      (∀ k : Int, 1 ≤ k →
        nearestMultipleSize true (320 * k) (240 * k) = (320 * k, 240 * k))) :=
  ⟨by decide, by decide, ResizeToNearestMultiple_idempotent true true 700 500 (by decide)
    (by decide)⟩

/-! ## `ResizeScreen`: screen state, trace and device -/

theorem ResizeScreen_scaling_screen (P : Platform) (s : World) :
    (ResizeScreen_scaling P s).screen = s.screen := by
  unfold ResizeScreen_scaling
  simp only [World.call, GetWindowSize]
  split_ifs <;> rfl

theorem ResizeScreen_screen (P : Platform) (x y : Int) (s : World) :
    (ResizeScreen P x y s).screen =
      if x ≠ -1 ∧ y ≠ -1 then { s.screen with resX := x, resY := y } else s.screen := by
  unfold ResizeScreen
  simp only [World.call]
  split_ifs <;> simp only [ResizeScreen_scaling_screen]

theorem ResizeScreen_unset_screen (P : Platform) (s : World) :
    (ResizeScreen P (-1) (-1) s).screen = s.screen := by
  rw [ResizeScreen_screen]
  simp

theorem ResizeScreen_scaling_success (P : Platform) (s : World)
    (hl : P.RenderSetLogicalSize_result = 0) (hi : P.RenderSetIntegerScale_result = 0) :
    ResizeScreen_scaling P s =
      if s.screen.stretchMode = 1 then
        { s with
          trace := s.trace ++ [.SDL_GetRendererOutputSize,
            .SDL_RenderSetLogicalSize P.outputSize.1 P.outputSize.2,
            .SDL_RenderSetIntegerScale false, .SDL_ShowWindow]
          device := { s.device with
            logicalSize := P.outputSize, integerScale := false, shown := true } }
      else
        { s with
          trace := s.trace ++ [.SDL_RenderSetLogicalSize 320 240,
            .SDL_RenderSetIntegerScale (decide (s.screen.stretchMode = 2)), .SDL_ShowWindow]
          device := { s.device with
            logicalSize := (320, 240), integerScale := decide (s.screen.stretchMode = 2),
            shown := true } } := by
  unfold ResizeScreen_scaling
  simp only [World.call, GetWindowSize, Device.exec, hl, hi, ne_eq, not_true_eq_false,
    if_false, if_true,
    List.append_assoc, List.singleton_append, List.cons_append, List.nil_append]

theorem ResizeScreen_success (P : Platform) (x y : Int) (s : World) (hP : P.allSucceed) :
    ResizeScreen P x y s =
      ResizeScreen_scaling P
        (if x ≠ -1 ∧ y ≠ -1 then
          if s.screen.isWindowed then
            { screen := { s.screen with resX := x, resY := y }
              device := { s.device with fullscreen := false, windowSize := (x, y) }
              trace := s.trace ++ [.SDL_SetWindowFullscreen false, .SDL_SetWindowSize x y,
                .SDL_SetWindowPosition] }
          else
            { screen := { s.screen with resX := x, resY := y }
              device := { s.device with fullscreen := true }
              trace := s.trace ++ [.SDL_SetWindowFullscreen true] }
        else
          { s with
            device := { s.device with fullscreen := !s.screen.isWindowed }
            trace := s.trace ++ [.SDL_SetWindowFullscreen (!s.screen.isWindowed)] }) := by
  obtain ⟨hf, -, -⟩ := hP
  unfold ResizeScreen
  by_cases hxy : x ≠ -1 ∧ y ≠ -1 <;> cases hw : s.screen.isWindowed <;>
    simp [World.call, Device.exec, hf, hxy, hw]

/-- C5: when every platform call succeeds, `ResizeScreen` leaves the renderer with logical
size equal to the reported window size and integer-scale off if `stretchMode = 1`, and with
logical size 320x240 and integer-scale on exactly when `stretchMode = 2` if `stretchMode`
is 0 or 2; in both cases the last platform call, and the last call of all, is
`SDL_ShowWindow`. -/
theorem ResizeScreen_renderer_configuration (P : Platform) (x y : Int) (s : World)
    (hP : P.allSucceed) :
    (s.screen.stretchMode = 1 →
        (ResizeScreen P x y s).device.logicalSize = P.outputSize ∧
        (ResizeScreen P x y s).device.integerScale = false) ∧
      (s.screen.stretchMode = 0 ∨ s.screen.stretchMode = 2 →
        (ResizeScreen P x y s).device.logicalSize = (320, 240) ∧
        ((ResizeScreen P x y s).device.integerScale = true ↔ s.screen.stretchMode = 2)) ∧
      (platformCalls (ResizeScreen P x y s).trace).getLast? = some .SDL_ShowWindow ∧
      (ResizeScreen P x y s).trace.getLast? = some .SDL_ShowWindow ∧
      (ResizeScreen P x y s).device.shown = true := by
  rw [ResizeScreen_success P x y s hP, ResizeScreen_scaling_success P _ hP.2.1 hP.2.2]
  by_cases hxy : x ≠ -1 ∧ y ≠ -1 <;> cases hw : s.screen.isWindowed <;>
    by_cases h1 : s.screen.stretchMode = 1 <;>
    simp [hxy, hw, h1, platformCalls, Call.isPlatform, List.filter_append, List.getLast?_append]

theorem ResizeScreen_renderer_configuration_witness :
    Platform.allSucceed (Platform.answering 0 0 0 (700, 500)) ∧
      (((2 : Int) = 1 →
        (ResizeScreen (Platform.answering 0 0 0 (700, 500)) (-1) (-1)
          (World.sample true 2 (700, 500) (700, 500))).device.logicalSize = (700, 500) ∧
        (ResizeScreen (Platform.answering 0 0 0 (700, 500)) (-1) (-1)
          (World.sample true 2 (700, 500) (700, 500))).device.integerScale = false) ∧
      ((2 : Int) = 0 ∨ (2 : Int) = 2 →
        (ResizeScreen (Platform.answering 0 0 0 (700, 500)) (-1) (-1)
          (World.sample true 2 (700, 500) (700, 500))).device.logicalSize = (320, 240) ∧
        ((ResizeScreen (Platform.answering 0 0 0 (700, 500)) (-1) (-1)
          (World.sample true 2 (700, 500) (700, 500))).device.integerScale = true ↔
          (2 : Int) = 2)) ∧
      (platformCalls (ResizeScreen (Platform.answering 0 0 0 (700, 500)) (-1) (-1)
          (World.sample true 2 (700, 500) (700, 500))).trace).getLast? =
        some .SDL_ShowWindow ∧
      (ResizeScreen (Platform.answering 0 0 0 (700, 500)) (-1) (-1)
          (World.sample true 2 (700, 500) (700, 500))).trace.getLast? =
        some .SDL_ShowWindow ∧
      (ResizeScreen (Platform.answering 0 0 0 (700, 500)) (-1) (-1)
          (World.sample true 2 (700, 500) (700, 500))).device.shown = true) :=
  ⟨by decide,
    ResizeScreen_renderer_configuration (Platform.answering 0 0 0 (700, 500)) (-1) (-1)
      (World.sample true 2 (700, 500) (700, 500)) (by decide)⟩

/-- C6 at the failing input: with `stretchMode = 0`, when `SDL_RenderSetLogicalSize`
fails (status -1) the run goes on to set integer-scale and show the window, and nothing is
logged; with `stretchMode = 1` the same failure is logged and ends the run. -/
theorem ResizeScreen_logical_size_failure_unchecked :
    (ResizeScreen (Platform.answering 0 (-1) 0 (640, 480)) (-1) (-1)
        (World.sample true 0 (640, 480) (640, 480))).trace =
      [.SDL_SetWindowFullscreen false, .SDL_RenderSetLogicalSize 320 240,
        .SDL_RenderSetIntegerScale false, .SDL_ShowWindow] ∧
    (ResizeScreen (Platform.answering 0 (-1) 0 (640, 480)) (-1) (-1)
        (World.sample true 1 (640, 480) (640, 480))).trace =
      [.SDL_SetWindowFullscreen false, .SDL_GetRendererOutputSize,
        .SDL_RenderSetLogicalSize 640 480,
        .vlog_error "Error: could not set logical size: %s"] := by
  constructor <;> decide

theorem platformCalls_call (s : World) (c : Call) (result : Int) :
    platformCalls (s.call c result).trace =
      platformCalls s.trace ++ (if c.isPlatform then [c] else []) := by
  simp only [World.call, platformCalls, List.filter_append, List.filter_cons, List.filter_nil]

/-! ## Failure of the mode switch -/

theorem ResizeScreen_mode_switch_failure (P : Platform) (x y : Int) (s : World)
    (hfail : P.SetWindowFullscreen_result ≠ 0) :
    (ResizeScreen P x y s).device = s.device ∧
      (ResizeScreen P x y s).trace =
        s.trace ++ [.SDL_SetWindowFullscreen (!s.screen.isWindowed),
          .vlog_error (if s.screen.isWindowed then
            "Error: could not set the game to windowed mode: %s"
          else "Error: could not set the game to fullscreen mode: %s")] ∧
      platformCalls (ResizeScreen P x y s).trace =
        platformCalls s.trace ++ [.SDL_SetWindowFullscreen (!s.screen.isWindowed)] := by
  unfold ResizeScreen
  by_cases hxy : x ≠ -1 ∧ y ≠ -1 <;> cases hw : s.screen.isWindowed <;>
    simp [World.call, Device.exec, hfail, hxy, hw, platformCalls, Call.isPlatform,
      List.filter_append]

/-- C7 as stated fails: when the mode switch fails (status -1), `toggleFullScreen` on a
windowed screen leaves `isWindowed = false` although the device is still windowed, and
`ResizeScreen(800, 600)` leaves the remembered size at 800x600 instead of the earlier
640x480. -/
theorem mode_switch_failure_state_not_intact :
    (toggleFullScreen (Platform.answering (-1) 0 0 (640, 480)) false
        (World.sample true 0 (640, 480) (640, 480))).screen.isWindowed = false ∧
    (toggleFullScreen (Platform.answering (-1) 0 0 (640, 480)) false
        (World.sample true 0 (640, 480) (640, 480))).device.fullscreen = false ∧
    (ResizeScreen (Platform.answering (-1) 0 0 (640, 480)) 800 600
        (World.sample true 0 (640, 480) (640, 480))).screen.resX = 800 ∧
    (ResizeScreen (Platform.answering (-1) 0 0 (640, 480)) 800 600
        (World.sample true 0 (640, 480) (640, 480))).screen.resY = 600 := by
  decide

/-- C7, amended: when the mode-switch call fails, the operation stops there: it logs the
error and issues no further platform call (`toggleFullScreen` still asks the menu to rebuild
when the graphic-options menu is open), and it rolls nothing back.  `stretchMode` and the
other flags keep their values; after `toggleFullScreen` `isWindowed` stays flipped and the
remembered size is unchanged; after `ResizeScreen` with a concrete size `(x, y)` the
remembered size is already `(x, y)` and `isWindowed` is unchanged.  The device is left as it
was (a failed call has no effect on it), so after a failed `toggleFullScreen` `isWindowed`
agrees with the device mode exactly when it disagreed before. -/
theorem mode_switch_failure_no_rollback (P : Platform) (graphicoptions : Bool) (x y : Int)
    (s : World) (hfail : P.SetWindowFullscreen_result ≠ 0) (hx : x ≠ -1) (hy : y ≠ -1) :
    ((toggleFullScreen P graphicoptions s).screen =
        { s.screen with isWindowed := !s.screen.isWindowed } ∧
      (toggleFullScreen P graphicoptions s).device = s.device ∧
      (toggleFullScreen P graphicoptions s).trace =
        s.trace ++ [.SDL_SetWindowFullscreen s.screen.isWindowed,
          .vlog_error (if s.screen.isWindowed then
            "Error: could not set the game to fullscreen mode: %s"
          else "Error: could not set the game to windowed mode: %s")] ++
          (if graphicoptions then [.createmenu] else []) ∧
      platformCalls (toggleFullScreen P graphicoptions s).trace =
        platformCalls s.trace ++ [.SDL_SetWindowFullscreen s.screen.isWindowed] ∧
      ((toggleFullScreen P graphicoptions s).screen.isWindowed =
          (!(toggleFullScreen P graphicoptions s).device.fullscreen) ↔
        ¬ s.screen.isWindowed = (!s.device.fullscreen))) ∧
    ((ResizeScreen P x y s).screen = { s.screen with resX := x, resY := y } ∧
      (ResizeScreen P x y s).device = s.device ∧
      (ResizeScreen P x y s).trace =
        s.trace ++ [.SDL_SetWindowFullscreen (!s.screen.isWindowed),
          .vlog_error (if s.screen.isWindowed then
            "Error: could not set the game to windowed mode: %s"
          else "Error: could not set the game to fullscreen mode: %s")] ∧
      platformCalls (ResizeScreen P x y s).trace =
        platformCalls s.trace ++ [.SDL_SetWindowFullscreen (!s.screen.isWindowed)]) := by
  obtain ⟨hd, ht, hp⟩ := ResizeScreen_mode_switch_failure P (-1) (-1)
    { s with screen := { s.screen with isWindowed := !s.screen.isWindowed } } hfail
  simp only [Bool.not_not] at hd ht hp
  have hscreen : (toggleFullScreen P graphicoptions s).screen =
      { s.screen with isWindowed := !s.screen.isWindowed } := by
    unfold toggleFullScreen
    cases graphicoptions <;> simp [World.call, ResizeScreen_unset_screen]
  have hdevice : (toggleFullScreen P graphicoptions s).device = s.device := by
    unfold toggleFullScreen
    cases graphicoptions <;> simp [World.call, Device.exec, hd]
  refine ⟨⟨hscreen, hdevice, ?_, ?_, ?_⟩, ?_, ?_⟩
  · unfold toggleFullScreen
    cases graphicoptions <;> cases hw : s.screen.isWindowed <;>
      simp only [hw, Bool.not_true, Bool.not_false] at ht <;>
      simp [World.call, ht, hw]
  · cases graphicoptions
    · simpa only [toggleFullScreen, Bool.false_eq_true, if_false] using hp
    · simp only [toggleFullScreen, if_true, platformCalls_call, hp, Call.isPlatform,
        Bool.false_eq_true, if_false, List.append_nil]
  · rw [hscreen, hdevice]
    cases s.screen.isWindowed <;> cases s.device.fullscreen <;> simp
  · rw [ResizeScreen_screen]
    simp [hx, hy]
  · exact ResizeScreen_mode_switch_failure P x y s hfail

theorem mode_switch_failure_no_rollback_witness :
    (-1 : Int) ≠ 0 ∧ (800 : Int) ≠ -1 ∧ (600 : Int) ≠ -1 ∧
    (((toggleFullScreen (Platform.answering (-1) 0 0 (640, 480)) true (World.sample true 0 (640, 480) (640, 480))).screen =
        { (World.sample true 0 (640, 480) (640, 480)).screen with isWindowed := !(World.sample true 0 (640, 480) (640, 480)).screen.isWindowed } ∧
      (toggleFullScreen (Platform.answering (-1) 0 0 (640, 480)) true (World.sample true 0 (640, 480) (640, 480))).device = (World.sample true 0 (640, 480) (640, 480)).device ∧
      (toggleFullScreen (Platform.answering (-1) 0 0 (640, 480)) true (World.sample true 0 (640, 480) (640, 480))).trace =
        (World.sample true 0 (640, 480) (640, 480)).trace ++ [.SDL_SetWindowFullscreen (World.sample true 0 (640, 480) (640, 480)).screen.isWindowed,
          .vlog_error (if (World.sample true 0 (640, 480) (640, 480)).screen.isWindowed then
            "Error: could not set the game to fullscreen mode: %s"
          else "Error: could not set the game to windowed mode: %s")] ++
          (if true then [.createmenu] else []) ∧
      platformCalls (toggleFullScreen (Platform.answering (-1) 0 0 (640, 480)) true (World.sample true 0 (640, 480) (640, 480))).trace =
        platformCalls (World.sample true 0 (640, 480) (640, 480)).trace ++
          [.SDL_SetWindowFullscreen (World.sample true 0 (640, 480) (640, 480)).screen.isWindowed] ∧
      ((toggleFullScreen (Platform.answering (-1) 0 0 (640, 480)) true (World.sample true 0 (640, 480) (640, 480))).screen.isWindowed =
          (!(toggleFullScreen (Platform.answering (-1) 0 0 (640, 480)) true (World.sample true 0 (640, 480) (640, 480))).device.fullscreen) ↔
        ¬ (World.sample true 0 (640, 480) (640, 480)).screen.isWindowed = (!(World.sample true 0 (640, 480) (640, 480)).device.fullscreen))) ∧
    ((ResizeScreen (Platform.answering (-1) 0 0 (640, 480)) 800 600 (World.sample true 0 (640, 480) (640, 480))).screen =
        { (World.sample true 0 (640, 480) (640, 480)).screen with resX := 800, resY := 600 } ∧
      (ResizeScreen (Platform.answering (-1) 0 0 (640, 480)) 800 600 (World.sample true 0 (640, 480) (640, 480))).device = (World.sample true 0 (640, 480) (640, 480)).device ∧
      (ResizeScreen (Platform.answering (-1) 0 0 (640, 480)) 800 600 (World.sample true 0 (640, 480) (640, 480))).trace =
        (World.sample true 0 (640, 480) (640, 480)).trace ++ [.SDL_SetWindowFullscreen (!(World.sample true 0 (640, 480) (640, 480)).screen.isWindowed),
          .vlog_error (if (World.sample true 0 (640, 480) (640, 480)).screen.isWindowed then
            "Error: could not set the game to windowed mode: %s"
          else "Error: could not set the game to fullscreen mode: %s")] ∧
      platformCalls (ResizeScreen (Platform.answering (-1) 0 0 (640, 480)) 800 600 (World.sample true 0 (640, 480) (640, 480))).trace =
        platformCalls (World.sample true 0 (640, 480) (640, 480)).trace ++
          [.SDL_SetWindowFullscreen (!(World.sample true 0 (640, 480) (640, 480)).screen.isWindowed)])) :=
  ⟨by decide, by decide, by decide,
    mode_switch_failure_no_rollback (Platform.answering (-1) 0 0 (640, 480)) true 800 600 (World.sample true 0 (640, 480) (640, 480)) (by decide) (by decide)
      (by decide)⟩

/-! ## `toggleFullScreen` -/

theorem ResizeScreen_unset_success (P : Platform) (s : World) (hP : P.allSucceed) :
    (ResizeScreen P (-1) (-1) s).device.fullscreen = !s.screen.isWindowed ∧
      (ResizeScreen P (-1) (-1) s).device.windowSize = s.device.windowSize ∧
      ∃ added : List Call, (ResizeScreen P (-1) (-1) s).trace = s.trace ++ added ∧
        ∀ w h : Int, Call.SDL_SetWindowSize w h ∉ added := by
  rw [ResizeScreen_success P _ _ s hP, ResizeScreen_scaling_success P _ hP.2.1 hP.2.2]
  by_cases h1 : s.screen.stretchMode = 1
  · simp only [h1, ne_eq, not_true_eq_false, and_self, if_false, if_true, List.append_assoc,
      true_and]
    exact ⟨_, rfl, by simp⟩
  · simp only [h1, ne_eq, not_true_eq_false, and_self, if_false, List.append_assoc, true_and]
    exact ⟨_, rfl, by simp⟩

theorem toggleFullScreen_success (P : Platform) (graphicoptions : Bool) (s : World)
    (hP : P.allSucceed) :
    (toggleFullScreen P graphicoptions s).screen =
        { s.screen with isWindowed := !s.screen.isWindowed } ∧
      (toggleFullScreen P graphicoptions s).device.fullscreen = s.screen.isWindowed ∧
      (toggleFullScreen P graphicoptions s).device.windowSize = s.device.windowSize ∧
      ∃ added : List Call, (toggleFullScreen P graphicoptions s).trace = s.trace ++ added ∧
        ∀ w h : Int, Call.SDL_SetWindowSize w h ∉ added := by
  obtain ⟨hf, hw, added, ht, hno⟩ := ResizeScreen_unset_success P
    { s with screen := { s.screen with isWindowed := !s.screen.isWindowed } } hP
  simp only [Bool.not_not] at hf
  cases graphicoptions
  · simp only [toggleFullScreen, Bool.false_eq_true, if_false]
    exact ⟨ResizeScreen_unset_screen P _, hf, hw, added, ht, hno⟩
  · simp only [toggleFullScreen, if_true, World.call, Device.exec]
    refine ⟨ResizeScreen_unset_screen P _, by simpa using hf, by simpa using hw,
      added ++ [.createmenu], ?_, ?_⟩
    · rw [ht, List.append_assoc]
    · intro w h
      simp [hno w h]

/-- C8 as stated fails.  Starting in fullscreen (`isWindowed = false`), two toggles end
with the device in fullscreen, not windowed, mode.  Starting windowed with a window of
800x600 and a remembered size of 640x480, two toggles end with the window still 800x600:
no call sets it to the remembered size. -/
theorem double_toggle_device_counterexample :
    (toggleFullScreen (Platform.answering 0 0 0 (1920, 1080)) false
        (toggleFullScreen (Platform.answering 0 0 0 (640, 480)) false
          (World.sample false 0 (640, 480) (640, 480)))).device.fullscreen = true ∧
    (toggleFullScreen (Platform.answering 0 0 0 (800, 600)) false
        (toggleFullScreen (Platform.answering 0 0 0 (1920, 1080)) false
          (World.sample true 0 (640, 480) (800, 600)))).device.windowSize =
      (800, 600) ∧
    (toggleFullScreen (Platform.answering 0 0 0 (800, 600)) false
        (toggleFullScreen (Platform.answering 0 0 0 (1920, 1080)) false
          (World.sample true 0 (640, 480) (800, 600)))).trace =
      [.SDL_SetWindowFullscreen true, .SDL_RenderSetLogicalSize 320 240,
        .SDL_RenderSetIntegerScale false, .SDL_ShowWindow,
        .SDL_SetWindowFullscreen false, .SDL_RenderSetLogicalSize 320 240,
        .SDL_RenderSetIntegerScale false, .SDL_ShowWindow] := by
  decide

/-- C8, amended: with the platform calls succeeding, calling `toggleFullScreen` twice
restores `isWindowed` and leaves the remembered size (and every other screen field)
unchanged; the device ends the second toggle in the mode `isWindowed` originally recorded
(windowed exactly when `isWindowed` was true), and no call that sets the window size is
issued, so the requested window size of the device is left as it was. -/
theorem toggleFullScreen_twice (P1 P2 : Platform) (g1 g2 : Bool) (s : World)
    (h1 : P1.allSucceed) (h2 : P2.allSucceed) :
    (toggleFullScreen P2 g2 (toggleFullScreen P1 g1 s)).screen = s.screen ∧
      (toggleFullScreen P2 g2 (toggleFullScreen P1 g1 s)).device.fullscreen =
        !s.screen.isWindowed ∧
      (toggleFullScreen P2 g2 (toggleFullScreen P1 g1 s)).device.windowSize =
        s.device.windowSize ∧
      ∃ added : List Call,
        (toggleFullScreen P2 g2 (toggleFullScreen P1 g1 s)).trace = s.trace ++ added ∧
        ∀ w h : Int, Call.SDL_SetWindowSize w h ∉ added := by
  obtain ⟨a1, b1, c1, added1, t1, n1⟩ := toggleFullScreen_success P1 g1 s h1
  obtain ⟨a2, b2, c2, added2, t2, n2⟩ :=
    toggleFullScreen_success P2 g2 (toggleFullScreen P1 g1 s) h2
  refine ⟨?_, ?_, ?_, added1 ++ added2, ?_, ?_⟩
  · rw [a2, a1]
    simp
  · rw [b2, a1]
  · rw [c2, c1]
  · rw [t2, t1, List.append_assoc]
  · intro w h
    simp [n1 w h, n2 w h]

theorem toggleFullScreen_twice_witness :
    Platform.allSucceed (Platform.answering 0 0 0 (1920, 1080)) ∧
      Platform.allSucceed (Platform.answering 0 0 0 (640, 480)) ∧
      ((toggleFullScreen (Platform.answering 0 0 0 (640, 480)) false
          (toggleFullScreen (Platform.answering 0 0 0 (1920, 1080)) true
            (World.sample true 0 (640, 480) (640, 480)))).screen =
        (World.sample true 0 (640, 480) (640, 480)).screen ∧
      (toggleFullScreen (Platform.answering 0 0 0 (640, 480)) false
          (toggleFullScreen (Platform.answering 0 0 0 (1920, 1080)) true
            (World.sample true 0 (640, 480) (640, 480)))).device.fullscreen =
        !true ∧
      (toggleFullScreen (Platform.answering 0 0 0 (640, 480)) false
          (toggleFullScreen (Platform.answering 0 0 0 (1920, 1080)) true
            (World.sample true 0 (640, 480) (640, 480)))).device.windowSize =
        (640, 480) ∧
      ∃ added : List Call,
        (toggleFullScreen (Platform.answering 0 0 0 (640, 480)) false
          (toggleFullScreen (Platform.answering 0 0 0 (1920, 1080)) true
            (World.sample true 0 (640, 480) (640, 480)))).trace =
          (World.sample true 0 (640, 480) (640, 480)).trace ++ added ∧
        ∀ w h : Int, Call.SDL_SetWindowSize w h ∉ added) :=
  ⟨by decide, by decide,
    toggleFullScreen_twice (Platform.answering 0 0 0 (1920, 1080))
      (Platform.answering 0 0 0 (640, 480)) true false
      (World.sample true 0 (640, 480) (640, 480)) (by decide) (by decide)⟩

/-! ## `toggleStretchMode` -/

theorem toggleStretchMode_screen (P : Platform) (s : World) :
    (toggleStretchMode P s).screen =
      { s.screen with stretchMode := (s.screen.stretchMode + 1).tmod 3 } := by
  unfold toggleStretchMode
  exact ResizeScreen_unset_screen P _

/-- C9: for every state with `stretchMode` in {0, 1, 2}, one `toggleStretchMode` takes
0 to 1, 1 to 2 and 2 to 0 and changes no other screen field; one or two calls never give
back the original `stretchMode`; three calls give back the original screen state,
whatever the platform answers. -/
theorem toggleStretchMode_cycle (P1 P2 P3 : Platform) (s : World)
    (hvalid : s.screen.stretchMode = 0 ∨ s.screen.stretchMode = 1 ∨
      s.screen.stretchMode = 2) :
    (toggleStretchMode P1 s).screen =
        { s.screen with stretchMode := if s.screen.stretchMode = 2 then 0
                                       else s.screen.stretchMode + 1 } ∧
      ((toggleStretchMode P1 s).screen.stretchMode = 0 ∨
        (toggleStretchMode P1 s).screen.stretchMode = 1 ∨
        (toggleStretchMode P1 s).screen.stretchMode = 2) ∧
      (toggleStretchMode P1 s).screen.stretchMode ≠ s.screen.stretchMode ∧
      (toggleStretchMode P2 (toggleStretchMode P1 s)).screen.stretchMode ≠
        s.screen.stretchMode ∧
      (toggleStretchMode P3 (toggleStretchMode P2 (toggleStretchMode P1 s))).screen =
        s.screen ∧
      ((toggleStretchMode P1 s).screen.isWindowed = s.screen.isWindowed ∧
        (toggleStretchMode P1 s).screen.isFiltered = s.screen.isFiltered ∧
        (toggleStretchMode P1 s).screen.vsync = s.screen.vsync ∧
        (toggleStretchMode P1 s).screen.badSignalEffect = s.screen.badSignalEffect) := by
  simp only [toggleStretchMode_screen]
  obtain ⟨sc, dev, tr⟩ := s
  obtain ⟨iw, sm, fl, vs, bs, rx, ry⟩ := sc
  simp only at hvalid ⊢
  have e1 : (1 : Int).tmod 3 = 1 := by decide
  have e2 : (2 : Int).tmod 3 = 2 := by decide
  have e3 : (3 : Int).tmod 3 = 0 := by decide
  rcases hvalid with rfl | rfl | rfl <;> simp [e1, e2, e3]

theorem toggleStretchMode_cycle_witness :
    ((2 : Int) = 0 ∨ (2 : Int) = 1 ∨ (2 : Int) = 2) ∧
      ((toggleStretchMode (Platform.answering 0 0 0 (700, 500))
          (World.sample true 2 (700, 500) (700, 500))).screen =
        { (World.sample true 2 (700, 500) (700, 500)).screen with
          stretchMode := if (2 : Int) = 2 then 0 else 2 + 1 } ∧
      ((toggleStretchMode (Platform.answering 0 0 0 (700, 500))
          (World.sample true 2 (700, 500) (700, 500))).screen.stretchMode = 0 ∨
        (toggleStretchMode (Platform.answering 0 0 0 (700, 500))
          (World.sample true 2 (700, 500) (700, 500))).screen.stretchMode = 1 ∨
        (toggleStretchMode (Platform.answering 0 0 0 (700, 500))
          (World.sample true 2 (700, 500) (700, 500))).screen.stretchMode = 2) ∧
      (toggleStretchMode (Platform.answering 0 0 0 (700, 500))
          (World.sample true 2 (700, 500) (700, 500))).screen.stretchMode ≠ 2 ∧
      (toggleStretchMode (Platform.answering 0 (-1) 0 (700, 500))
        (toggleStretchMode (Platform.answering 0 0 0 (700, 500))
          (World.sample true 2 (700, 500) (700, 500)))).screen.stretchMode ≠ 2 ∧
      (toggleStretchMode (Platform.answering 0 0 (-1) (700, 500))
        (toggleStretchMode (Platform.answering 0 (-1) 0 (700, 500))
          (toggleStretchMode (Platform.answering 0 0 0 (700, 500))
            (World.sample true 2 (700, 500) (700, 500))))).screen =
        (World.sample true 2 (700, 500) (700, 500)).screen ∧
      ((toggleStretchMode (Platform.answering 0 0 0 (700, 500))
          (World.sample true 2 (700, 500) (700, 500))).screen.isWindowed = true ∧
        (toggleStretchMode (Platform.answering 0 0 0 (700, 500))
          (World.sample true 2 (700, 500) (700, 500))).screen.isFiltered = false ∧
        (toggleStretchMode (Platform.answering 0 0 0 (700, 500))
          (World.sample true 2 (700, 500) (700, 500))).screen.vsync = true ∧
        (toggleStretchMode (Platform.answering 0 0 0 (700, 500))
          (World.sample true 2 (700, 500) (700, 500))).screen.badSignalEffect = false)) :=
  ⟨by decide,
    toggleStretchMode_cycle (Platform.answering 0 0 0 (700, 500))
      (Platform.answering 0 (-1) 0 (700, 500)) (Platform.answering 0 0 (-1) (700, 500))
      (World.sample true 2 (700, 500) (700, 500)) (by decide)⟩

end Screen
